import Mathlib

/-!
Shallow embedding of `cnocr/symbols/densenet.py`: a DenseNet-style feature
extractor declared as a graph of MXNet Gluon layers.  We model the layer graph
as a list of layers, each with a shape semantics (NCHW tensors, `Option` for
shape errors raised by the tensor library) and an abstract value semantics
parameterised over an RNG state, used to state determinism of the forward pass.
-/

set_option autoImplicit false

namespace CnocrDensenet

/-- Tensor shape in NCHW layout: batch, channels, height, width. -/
structure Shape where
  n : Nat
  c : Nat
  h : Nat
  w : Nat
deriving DecidableEq, Repr

/-- Output size of one spatial dimension of `nn.Conv2D` ('valid' semantics of
MXNet): `floor((i + 2p - k)/s) + 1`, defined when `k ≤ i + 2p`. -/
def convDim (i k s p : Nat) : Option Nat :=
  if k ≤ i + 2 * p then some ((i + 2 * p - k) / s + 1) else none

/-- Output size of one spatial dimension of `nn.MaxPool2D` (default
`pooling_convention='valid'`): `floor((i - k)/s) + 1`, defined when `k ≤ i`. -/
def poolDim (i k s : Nat) : Option Nat :=
  if k ≤ i then some ((i - k) / s + 1) else none

/-- The primitive Gluon layers used by `densenet.py`.  `conv2d` records the
configured number of output channels, kernel, strides and padding (input
channels are inferred lazily by Gluon and are not part of the configuration);
`dropout` records the dropout rate. -/
inductive PrimLayer where
  | conv2d (channels kernelH kernelW strideH strideW padH padW : Nat)
  | batchNorm
  | actRelu
  | maxPool2d (poolH poolW strideH strideW : Nat)
  | dropout (rate : ℚ)
deriving DecidableEq, Repr

/-- A node of the feature graph: either a primitive layer, or a residual cell
as built by `_make_residual`: `HybridConcurrent(axis=1)` of `Identity()` and
a `HybridSequential` body, i.e. channel-wise concatenation of the input with
the body's output. -/
inductive Layer where
  | prim (p : PrimLayer)
  | residual (body : List PrimLayer)
deriving DecidableEq, Repr

/-- A `HybridSequential` of layers. -/
abbrev Net := List Layer

/-- Shape semantics of one primitive layer.  `none` models the shape error the
tensor library raises at first execution. -/
def PrimLayer.outShape : PrimLayer → Shape → Option Shape
  | .conv2d ch kH kW sH sW pH pW, s =>
      (convDim s.h kH sH pH).bind fun oh =>
        (convDim s.w kW sW pW).map fun ow => ⟨s.n, ch, oh, ow⟩
  | .batchNorm, s => some s
  | .actRelu, s => some s
  | .maxPool2d pH pW sH sW, s =>
      (poolDim s.h pH sH).bind fun oh =>
        (poolDim s.w pW sW).map fun ow => ⟨s.n, s.c, oh, ow⟩
  | .dropout _, s => some s

/-- Shape semantics of a sequential body of primitive layers. -/
def runPrims : List PrimLayer → Shape → Option Shape
  | [], s => some s
  | p :: ps, s =>
      match p.outShape s with
      | some s2 => runPrims ps s2
      | none => none

/-- Shape semantics of a graph node.  Concatenation along axis 1 requires the
two branches to agree on every other axis and adds the channel counts, the
`Identity()` branch contributing the input unchanged. -/
def Layer.outShape : Layer → Shape → Option Shape
  | .prim p, s => p.outShape s
  | .residual body, s =>
      (runPrims body s).bind fun s2 =>
        if s2.n = s.n ∧ s2.h = s.h ∧ s2.w = s.w then
          some ⟨s.n, s.c + s2.c, s.h, s.w⟩
        else none

/-- Shape semantics of a sequential net. -/
def runNet : Net → Shape → Option Shape
  | [], s => some s
  | l :: ls, s =>
      match l.outShape s with
      | some s2 => runNet ls s2
      | none => none

/-- `_make_dense_layer(growth_rate, bn_size, dropout)`:
BN → ReLU → Conv(bn_size*growth_rate, 1x1) → BN → ReLU →
Conv(growth_rate, 3x3, pad 1), with a trailing `Dropout` exactly when the rate
is truthy (nonzero), wrapped by `_make_residual`. -/
def make_dense_layer (growth_rate bn_size : Nat) (dropout : ℚ) : Layer :=
  Layer.residual
    ([PrimLayer.batchNorm, PrimLayer.actRelu,
      PrimLayer.conv2d (bn_size * growth_rate) 1 1 1 1 0 0,
      PrimLayer.batchNorm, PrimLayer.actRelu,
      PrimLayer.conv2d growth_rate 3 3 1 1 1 1] ++
     (if dropout = 0 then [] else [PrimLayer.dropout dropout]))

/-- `_make_dense_block(num_layers, bn_size, growth_rate, dropout, _)`:
`num_layers` copies of the dense layer in sequence. -/
def make_dense_block (num_layers bn_size growth_rate : Nat) (dropout : ℚ) : Net :=
  List.replicate num_layers (make_dense_layer growth_rate bn_size dropout)

/-- `_make_transition(num_output_features, strides)`:
BN → ReLU → Conv(num_output_features, 1x1) → MaxPool(2, strides). -/
def make_transition (num_output_features stridesH stridesW : Nat) : Net :=
  [Layer.prim PrimLayer.batchNorm, Layer.prim PrimLayer.actRelu,
   Layer.prim (PrimLayer.conv2d num_output_features 1 1 1 1 0 0),
   Layer.prim (PrimLayer.maxPool2d 2 2 stridesH stridesW)]

/-- `_make_first_stage_net((c0, c1))`:
Conv(c0, 3x3, pad 1) → BN → ReLU → Conv(c1, 3x3, pad 1), wrapped by
`_make_residual`. -/
def make_first_stage_net (c0 c1 : Nat) : Layer :=
  Layer.residual
    [PrimLayer.conv2d c0 3 3 1 1 1 1, PrimLayer.batchNorm, PrimLayer.actRelu,
     PrimLayer.conv2d c1 3 3 1 1 1 1]

/-- `_make_inter_stage_net(stage_index, num_layers, growth_rate)`: a dense
block with `bn_size=2` and `dropout=0.0` (the stage index only affects layer
naming). -/
def make_inter_stage_net (num_layers growth_rate : Nat) : Net :=
  make_dense_block num_layers 2 growth_rate 0

/-- `_make_final_stage_net(stage_index, out_channels)`:
BN → ReLU → Conv(out_channels // 4, 1x1) → BN → ReLU →
Conv(out_channels, kernel (4,1)) → BN → ReLU. -/
def make_final_stage_net (out_channels : Nat) : Net :=
  [Layer.prim PrimLayer.batchNorm, Layer.prim PrimLayer.actRelu,
   Layer.prim (PrimLayer.conv2d (out_channels / 4) 1 1 1 1 0 0),
   Layer.prim PrimLayer.batchNorm, Layer.prim PrimLayer.actRelu,
   Layer.prim (PrimLayer.conv2d out_channels 4 1 1 1 0 0),
   Layer.prim PrimLayer.batchNorm, Layer.prim PrimLayer.actRelu]

/-- The `self.features` graph built by `DenseNet.__init__` from a channel
configuration `[c0, c1, c2, c3]`: stage 0, transition (strides 2), stage 1
(2 dense layers, growth `c0`), transition (strides 2), stage 2 (2 dense
layers, growth `c1`), transition (strides (2,1)), stage 3. -/
def featuresNet (c0 c1 c2 c3 : Nat) : Net :=
  [make_first_stage_net c0 c1] ++ make_transition c1 2 2 ++
  make_inter_stage_net 2 c0 ++ make_transition c2 2 2 ++
  make_inter_stage_net 2 c1 ++ make_transition c3 2 1 ++
  make_final_stage_net c3

/-- A constructed `DenseNet` module: its only graph state is `self.features`. -/
structure DenseNetM where
  features : Net
deriving DecidableEq, Repr

/-- `DenseNet.__init__(layer_channels)`.  The leading
`assert len(layer_channels) == 4` is modelled by returning `none` (assertion
failure) unless the list has exactly four elements; otherwise the features
graph is built with no further validation. -/
def DenseNet.init (layer_channels : List Nat) : Option DenseNetM :=
  match layer_channels with
  | [c0, c1, c2, c3] => some ⟨featuresNet c0 c1 c2 c3⟩
  | _ => none

/-- `DenseNet.hybrid_forward(self, F, x)`: applies `self.features` to `x` and
returns the result; modelled with explicit state passing to record that the
module itself is not mutated. -/
def DenseNetM.hybrid_forward (self : DenseNetM) (x : Shape) :
    Option Shape × DenseNetM :=
  (runNet self.features x, self)

/-- Whether a primitive layer is an `nn.Dropout` layer. -/
def PrimLayer.isDropout : PrimLayer → Bool
  | .dropout _ => true
  | _ => false

/-- Whether a graph node contains an `nn.Dropout` layer. -/
def Layer.hasDropout : Layer → Bool
  | .prim p => p.isDropout
  | .residual body => body.any PrimLayer.isDropout

/-- Whether a net contains an `nn.Dropout` layer anywhere. -/
def Net.hasDropout (net : Net) : Bool :=
  net.any Layer.hasDropout

/-- An abstract value semantics for the primitive layers: tensors of type `T`,
an RNG state of type `R`.  Every layer is a deterministic function of its
input, except `drop` (`nn.Dropout`), the only layer that consults and advances
the RNG state.  `concat` is channel-wise concatenation. -/
structure PrimSem (T R : Type) where
  conv : Nat → Nat → Nat → Nat → Nat → Nat → Nat → T → T
  bn : T → T
  act : T → T
  pool : Nat → Nat → Nat → Nat → T → T
  drop : ℚ → T → R → T × R
  concat : T → T → T

/-- Run one primitive layer on a value and an RNG state. -/
def PrimLayer.runV {T R : Type} (sem : PrimSem T R) : PrimLayer → T → R → T × R
  | .conv2d ch kH kW sH sW pH pW, t, r => (sem.conv ch kH kW sH sW pH pW t, r)
  | .batchNorm, t, r => (sem.bn t, r)
  | .actRelu, t, r => (sem.act t, r)
  | .maxPool2d pH pW sH sW, t, r => (sem.pool pH pW sH sW t, r)
  | .dropout d, t, r => sem.drop d t r

/-- Run a sequential body of primitive layers on a value and an RNG state. -/
def runPrimsV {T R : Type} (sem : PrimSem T R) : List PrimLayer → T → R → T × R
  | [], t, r => (t, r)
  | p :: ps, t, r => runPrimsV sem ps (p.runV sem t r).1 (p.runV sem t r).2

/-- Run a graph node on a value and an RNG state. -/
def Layer.runV {T R : Type} (sem : PrimSem T R) : Layer → T → R → T × R
  | .prim p, t, r => p.runV sem t r
  | .residual body, t, r =>
      (sem.concat t (runPrimsV sem body t r).1, (runPrimsV sem body t r).2)

/-- Run a net on a value and an RNG state. -/
def runNetV {T R : Type} (sem : PrimSem T R) : Net → T → R → T × R
  | [], t, r => (t, r)
  | l :: ls, t, r => runNetV sem ls (l.runV sem t r).1 (l.runV sem t r).2

/-- The RNG-free action of a primitive layer (meaningful when the layer is not
a dropout layer). -/
def PrimLayer.applyV {T R : Type} (sem : PrimSem T R) : PrimLayer → T → T
  | .conv2d ch kH kW sH sW pH pW, t => sem.conv ch kH kW sH sW pH pW t
  | .batchNorm, t => sem.bn t
  | .actRelu, t => sem.act t
  | .maxPool2d pH pW sH sW, t => sem.pool pH pW sH sW t
  | .dropout _, t => t

/-- The RNG-free action of a dropout-free body of primitive layers. -/
def primsApply {T R : Type} (sem : PrimSem T R) : List PrimLayer → T → T
  | [], t => t
  | p :: ps, t => primsApply sem ps (p.applyV sem t)

/-- The RNG-free action of a dropout-free graph node. -/
def layerApply {T R : Type} (sem : PrimSem T R) : Layer → T → T
  | .prim p, t => p.applyV sem t
  | .residual body, t => sem.concat t (primsApply sem body t)

/-- The RNG-free action of a dropout-free net. -/
def netApply {T R : Type} (sem : PrimSem T R) : Net → T → T
  | [], t => t
  | l :: ls, t => netApply sem ls (layerApply sem l t)

/-- A concrete instantiation of the abstract value semantics on natural
numbers, used to exhibit concrete runs. -/
def natSem : PrimSem Nat Nat where
  conv := fun ch _ _ _ _ _ _ t => 2 * t + ch
  bn := fun t => t + 1
  act := fun t => 3 * t
  pool := fun pH pW sH sW t => t + pH + pW + sH + sW
  drop := fun _ t r => (t + r, r + 7)
  concat := fun a b => 100 * a + b

/-! ### Helper lemmas -/

theorem convDim_k1 (i : Nat) (hi : 1 ≤ i) : convDim i 1 1 0 = some i := by
  unfold convDim
  rw [if_pos (by omega)]
  congr 1
  omega

theorem convDim_k3p1 (i : Nat) (hi : 1 ≤ i) : convDim i 3 1 1 = some i := by
  unfold convDim
  rw [if_pos (by omega)]
  congr 1
  omega

theorem convDim_k4 (i : Nat) (hi : 4 ≤ i) : convDim i 4 1 0 = some (i - 3) := by
  unfold convDim
  rw [if_pos (by omega)]
  congr 1
  omega

theorem poolDim_s2 (i : Nat) (hi : 2 ≤ i) : poolDim i 2 2 = some (i / 2) := by
  unfold poolDim
  rw [if_pos (by omega)]
  congr 1
  omega

theorem poolDim_s1 (i : Nat) (hi : 2 ≤ i) : poolDim i 2 1 = some (i - 1) := by
  unfold poolDim
  rw [if_pos (by omega)]
  congr 1
  omega

theorem runNet_append (xs ys : Net) (s : Shape) :
    runNet (xs ++ ys) s = (runNet xs s).bind (runNet ys) := by
  induction xs generalizing s with
  | nil => simp [runNet]
  | cons l ls ih =>
      simp only [List.cons_append, runNet]
      cases h : l.outShape s with
      | none => simp
      | some s2 => simp [ih]

theorem first_stage_outShape (c0 c1 n c h w : Nat) (hh : 1 ≤ h) (hw : 1 ≤ w) :
    (make_first_stage_net c0 c1).outShape ⟨n, c, h, w⟩ = some ⟨n, c + c1, h, w⟩ := by
  have e1 := convDim_k3p1 h hh
  have e2 := convDim_k3p1 w hw
  simp [make_first_stage_net, Layer.outShape, runPrims, PrimLayer.outShape, e1, e2]

theorem dense_layer_outShape (g b : Nat) (d : ℚ) (n c h w : Nat)
    (hh : 1 ≤ h) (hw : 1 ≤ w) :
    (make_dense_layer g b d).outShape ⟨n, c, h, w⟩ = some ⟨n, c + g, h, w⟩ := by
  have e1 := convDim_k1 h hh
  have e2 := convDim_k1 w hw
  have e3 := convDim_k3p1 h hh
  have e4 := convDim_k3p1 w hw
  rcases eq_or_ne d 0 with hd | hd <;>
    simp [make_dense_layer, hd, Layer.outShape, runPrims, PrimLayer.outShape,
          e1, e2, e3, e4]

theorem inter_stage_runNet (g n c h w : Nat) (hh : 1 ≤ h) (hw : 1 ≤ w) :
    runNet (make_inter_stage_net 2 g) ⟨n, c, h, w⟩ = some ⟨n, c + g + g, h, w⟩ := by
  have e1 := dense_layer_outShape g 2 0 n c h w hh hw
  have e2 := dense_layer_outShape g 2 0 n (c + g) h w hh hw
  simp [make_inter_stage_net, make_dense_block, List.replicate, runNet, e1, e2]

theorem transition_runNet_22 (f n c h w : Nat) (hh : 2 ≤ h) (hw : 2 ≤ w) :
    runNet (make_transition f 2 2) ⟨n, c, h, w⟩ = some ⟨n, f, h / 2, w / 2⟩ := by
  have e1 := convDim_k1 h (by omega)
  have e2 := convDim_k1 w (by omega)
  have e3 := poolDim_s2 h hh
  have e4 := poolDim_s2 w hw
  simp [make_transition, runNet, Layer.outShape, PrimLayer.outShape, e1, e2, e3, e4]

theorem transition_runNet_21 (f n c h w : Nat) (hh : 2 ≤ h) (hw : 2 ≤ w) :
    runNet (make_transition f 2 1) ⟨n, c, h, w⟩ = some ⟨n, f, h / 2, w - 1⟩ := by
  have e1 := convDim_k1 h (by omega)
  have e2 := convDim_k1 w (by omega)
  have e3 := poolDim_s2 h hh
  have e4 := poolDim_s1 w hw
  simp [make_transition, runNet, Layer.outShape, PrimLayer.outShape, e1, e2, e3, e4]

theorem final_stage_runNet (oc n c h w : Nat) (hh : 4 ≤ h) (hw : 1 ≤ w) :
    runNet (make_final_stage_net oc) ⟨n, c, h, w⟩ = some ⟨n, oc, h - 3, w⟩ := by
  have e1 := convDim_k1 h (by omega)
  have e2 := convDim_k1 w hw
  have e3 := convDim_k4 h hh
  have e4 := convDim_k1 (h - 3) (by omega)
  simp [make_final_stage_net, runNet, Layer.outShape, PrimLayer.outShape, e1, e2, e3, e4]

theorem init_inversion (lc : List Nat) (m : DenseNetM)
    (hinit : DenseNet.init lc = some m) :
    ∃ c0 c1 c2 c3, lc = [c0, c1, c2, c3] ∧ m = ⟨featuresNet c0 c1 c2 c3⟩ := by
  rcases lc with _ | ⟨a, _ | ⟨b, _ | ⟨c, _ | ⟨d, _ | ⟨e, rest⟩⟩⟩⟩⟩ <;>
    simp [DenseNet.init] at hinit
  exact ⟨a, b, c, d, rfl, hinit.symm⟩

theorem final_stage_channels (oc : Nat) (s out : Shape)
    (hrun : runNet (make_final_stage_net oc) s = some out) : out.c = oc := by
  simp only [make_final_stage_net, runNet, Layer.outShape, PrimLayer.outShape] at hrun
  rcases h1 : convDim s.h 1 1 0 with _ | oh1 <;> rw [h1] at hrun
  · simp at hrun
  rcases h2 : convDim s.w 1 1 0 with _ | ow1 <;> rw [h2] at hrun
  · simp at hrun
  simp only [Option.some_bind, Option.map_some'] at hrun
  rcases h3 : convDim oh1 4 1 0 with _ | oh2 <;> simp only [h3] at hrun
  · simp at hrun
  rcases h4 : convDim ow1 1 1 0 with _ | ow2 <;> simp only [h4] at hrun
  · simp at hrun
  simp only [Option.some_bind, Option.map_some', Option.some.injEq] at hrun
  rw [← hrun]

theorem featuresNet_channels (c0 c1 c2 c3 : Nat) (x out : Shape)
    (hrun : runNet (featuresNet c0 c1 c2 c3) x = some out) : out.c = c3 := by
  rw [featuresNet, runNet_append] at hrun
  rcases Option.bind_eq_some.mp hrun with ⟨mid, _, hfin⟩
  exact final_stage_channels c3 mid out hfin

theorem featuresNet_no_dropout (c0 c1 c2 c3 : Nat) :
    Net.hasDropout (featuresNet c0 c1 c2 c3) = false := rfl

theorem runV_no_dropout {T R : Type} (sem : PrimSem T R) (p : PrimLayer)
    (hp : p.isDropout = false) (t : T) (r : R) :
    p.runV sem t r = (p.applyV sem t, r) := by
  cases p <;> simp_all [PrimLayer.runV, PrimLayer.applyV, PrimLayer.isDropout]

theorem runPrimsV_no_dropout {T R : Type} (sem : PrimSem T R) (ps : List PrimLayer)
    (hnd : ps.any PrimLayer.isDropout = false) (t : T) (r : R) :
    runPrimsV sem ps t r = (primsApply sem ps t, r) := by
  induction ps generalizing t r with
  | nil => simp [runPrimsV, primsApply]
  | cons p ps ih =>
      rw [List.any_cons, Bool.or_eq_false_iff] at hnd
      rw [runPrimsV, runV_no_dropout sem p hnd.1, primsApply]
      exact ih hnd.2 _ _

theorem layer_runV_no_dropout {T R : Type} (sem : PrimSem T R) (l : Layer)
    (hnd : l.hasDropout = false) (t : T) (r : R) :
    l.runV sem t r = (layerApply sem l t, r) := by
  cases l with
  | prim p => exact runV_no_dropout sem p hnd t r
  | residual body =>
      rw [Layer.hasDropout] at hnd
      simp [Layer.runV, layerApply, runPrimsV_no_dropout sem body hnd]

theorem runNetV_no_dropout {T R : Type} (sem : PrimSem T R) (net : Net)
    (hnd : Net.hasDropout net = false) (t : T) (r : R) :
    runNetV sem net t r = (netApply sem net t, r) := by
  induction net generalizing t r with
  | nil => simp [runNetV, netApply]
  | cons l ls ih =>
      rw [Net.hasDropout, List.any_cons, Bool.or_eq_false_iff] at hnd
      rw [runNetV, layer_runV_no_dropout sem l hnd.1, netApply]
      exact ih hnd.2 _ _

/-! ### Claim theorems -/

/-- Claim C1: `DenseNet.__init__` fails its assertion exactly when the
channel-configuration list does not have length 4; for every list of length 4
the constructor performs no other validation of its own and succeeds. -/
theorem init_succeeds_iff_length_four (lc : List Nat) :
    (∃ m, DenseNet.init lc = some m) ↔ lc.length = 4 := by
  rcases lc with _ | ⟨a, _ | ⟨b, _ | ⟨c, _ | ⟨d, _ | ⟨e, rest⟩⟩⟩⟩⟩ <;>
    simp [DenseNet.init]

/-- Claim C2: for every length-4 channel configuration and every input tensor
on which the forward pass succeeds, the output channel dimension equals the
configured `layer_channels[3]`. -/
theorem forward_channels_eq_config_last (c0 c1 c2 c3 : Nat) (m : DenseNetM)
    (hinit : DenseNet.init [c0, c1, c2, c3] = some m) (x out : Shape)
    (hrun : (m.hybrid_forward x).1 = some out) : out.c = c3 := by
  simp only [DenseNet.init, Option.some.injEq] at hinit
  subst hinit
  simp only [DenseNetM.hybrid_forward] at hrun
  exact featuresNet_channels c0 c1 c2 c3 x out hrun

/-- Witness for C2: configuration [1,1,1,4], input (1,1,32,8). -/
theorem forward_channels_eq_config_last_witness :
    (DenseNet.init [1, 1, 1, 4] = some ⟨featuresNet 1 1 1 4⟩) ∧
    ((DenseNetM.mk (featuresNet 1 1 1 4)).hybrid_forward ⟨1, 1, 32, 8⟩).1 =
      some ⟨1, 4, 1, 1⟩ ∧
    (Shape.mk 1 4 1 1).c = 4 :=
  ⟨rfl, by decide,
   forward_channels_eq_config_last 1 1 1 4 ⟨featuresNet 1 1 1 4⟩ rfl ⟨1, 1, 32, 8⟩
     ⟨1, 4, 1, 1⟩ (by decide)⟩

/-- Claim C3: a dense layer concatenates its convolutional output with its own
input along the channel axis: on every input on which it succeeds, its output
is the input shape with the channel count increased by exactly `growth_rate`. -/
theorem dense_layer_output_channels (g b : Nat) (d : ℚ) (s out : Shape)
    (hrun : (make_dense_layer g b d).outShape s = some out) :
    out = ⟨s.n, s.c + g, s.h, s.w⟩ := by
  obtain ⟨n, c, h, w⟩ := s
  have e0 : convDim 0 1 1 0 = none := rfl
  by_cases hh : 1 ≤ h
  · by_cases hw : 1 ≤ w
    · rw [dense_layer_outShape g b d n c h w hh hw] at hrun
      simpa using hrun.symm
    · exfalso
      have h0 : w = 0 := by omega
      subst h0
      have e1 := convDim_k1 h hh
      simp [make_dense_layer, Layer.outShape, runPrims, PrimLayer.outShape,
            e0, e1] at hrun
  · exfalso
    have h0 : h = 0 := by omega
    subst h0
    simp [make_dense_layer, Layer.outShape, runPrims, PrimLayer.outShape,
          e0] at hrun

/-- Witness for C3: growth rate 2, input (1,3,4,5). -/
theorem dense_layer_output_channels_witness :
    ((make_dense_layer 2 2 0).outShape ⟨1, 3, 4, 5⟩ = some ⟨1, 5, 4, 5⟩) ∧
    (⟨1, 5, 4, 5⟩ : Shape) = ⟨1, 3 + 2, 4, 5⟩ :=
  ⟨by decide,
   dense_layer_output_channels 2 2 0 ⟨1, 3, 4, 5⟩ ⟨1, 5, 4, 5⟩ (by decide)⟩

/-- Claim C4: a transition block (BN → ReLU → 1x1 conv → max-pool) sets the
channel count to its configured `num_output_features` independently of the
input channel count, and its pooling halves the spatial resolution at strides
(2,2); at the last transition's strides (2,1) it halves the height and reduces
the width per its strides. -/
theorem transition_block_shape (f n c h w : Nat) (hh : 2 ≤ h) (hw : 2 ≤ w) :
    runNet (make_transition f 2 2) ⟨n, c, h, w⟩ = some ⟨n, f, h / 2, w / 2⟩ ∧
    runNet (make_transition f 2 1) ⟨n, c, h, w⟩ = some ⟨n, f, h / 2, w - 1⟩ :=
  ⟨transition_runNet_22 f n c h w hh hw, transition_runNet_21 f n c h w hh hw⟩

/-- Witness for C4: `num_output_features` 3, input (1,5,4,6). -/
theorem transition_block_shape_witness :
    ((2:Nat) ≤ 4 ∧ (2:Nat) ≤ 6) ∧
    runNet (make_transition 3 2 2) ⟨1, 5, 4, 6⟩ = some ⟨1, 3, 2, 3⟩ ∧
    runNet (make_transition 3 2 1) ⟨1, 5, 4, 6⟩ = some ⟨1, 3, 2, 5⟩ :=
  ⟨⟨by decide, by decide⟩,
   transition_block_shape 3 1 5 4 6 (by decide) (by decide)⟩

/-- Counterexample to claim C5 as stated: the output spatial dimensions are
not determined by the configuration alone.  With configuration [1,1,1,4], the
inputs (1,1,32,8) and (1,1,64,8) differ only in height and both are accepted,
yet the outputs have heights 1 and 5. -/
theorem output_dims_not_config_determined :
    (DenseNet.init [1, 1, 1, 4] = some ⟨featuresNet 1 1 1 4⟩) ∧
    ((DenseNetM.mk (featuresNet 1 1 1 4)).hybrid_forward ⟨1, 1, 32, 8⟩).1 =
      some ⟨1, 4, 1, 1⟩ ∧
    ((DenseNetM.mk (featuresNet 1 1 1 4)).hybrid_forward ⟨1, 1, 64, 8⟩).1 =
      some ⟨1, 4, 5, 1⟩ ∧
    (Shape.mk 1 4 1 1).h ≠ (Shape.mk 1 4 5 1).h :=
  ⟨rfl, by decide, by decide, by decide⟩

/-- Claim C5 (amended): for every accepted input, the output channel dimension
is fully determined by the fixed configuration alone: two accepted inputs
always yield outputs of equal channel dimension, namely `layer_channels[3]`.
(The spatial dimensions vary with the input height and width.) -/
theorem output_channels_config_determined (c0 c1 c2 c3 : Nat) (m : DenseNetM)
    (hinit : DenseNet.init [c0, c1, c2, c3] = some m) (x1 x2 o1 o2 : Shape)
    (h1 : (m.hybrid_forward x1).1 = some o1)
    (h2 : (m.hybrid_forward x2).1 = some o2) :
    o1.c = o2.c ∧ o1.c = c3 := by
  simp only [DenseNet.init, Option.some.injEq] at hinit
  subst hinit
  simp only [DenseNetM.hybrid_forward] at h1 h2
  have e1 := featuresNet_channels c0 c1 c2 c3 x1 o1 h1
  have e2 := featuresNet_channels c0 c1 c2 c3 x2 o2 h2
  exact ⟨e1.trans e2.symm, e1⟩

/-- Witness for the amended C5: inputs (1,1,32,8) and (1,1,64,8). -/
theorem output_channels_config_determined_witness :
    (DenseNet.init [1, 1, 1, 4] = some ⟨featuresNet 1 1 1 4⟩) ∧
    ((DenseNetM.mk (featuresNet 1 1 1 4)).hybrid_forward ⟨1, 1, 32, 8⟩).1 =
      some ⟨1, 4, 1, 1⟩ ∧
    ((DenseNetM.mk (featuresNet 1 1 1 4)).hybrid_forward ⟨1, 1, 64, 8⟩).1 =
      some ⟨1, 4, 5, 1⟩ ∧
    ((Shape.mk 1 4 1 1).c = (Shape.mk 1 4 5 1).c ∧ (Shape.mk 1 4 1 1).c = 4) :=
  ⟨rfl, by decide, by decide,
   output_channels_config_determined 1 1 1 4 ⟨featuresNet 1 1 1 4⟩ rfl
     ⟨1, 1, 32, 8⟩ ⟨1, 1, 64, 8⟩ ⟨1, 4, 1, 1⟩ ⟨1, 4, 5, 1⟩ (by decide) (by decide)⟩

/-- Claim C6: the forward pass contains no source of run-to-run randomness:
under any value semantics in which only dropout layers consult the RNG state,
the forward output of an initialised DenseNet on a fixed input is identical
for any two RNG states. -/
theorem forward_rng_independent {T R : Type} (sem : PrimSem T R)
    (lc : List Nat) (m : DenseNetM) (hinit : DenseNet.init lc = some m)
    (t : T) (r1 r2 : R) :
    (runNetV sem m.features t r1).1 = (runNetV sem m.features t r2).1 := by
  obtain ⟨c0, c1, c2, c3, rfl, rfl⟩ := init_inversion lc m hinit
  rw [runNetV_no_dropout sem _ (featuresNet_no_dropout c0 c1 c2 c3) t r1,
      runNetV_no_dropout sem _ (featuresNet_no_dropout c0 c1 c2 c3) t r2]

/-- Witness for C6: the natural-number semantics, input value 5, RNG states
0 and 99. -/
theorem forward_rng_independent_witness :
    (DenseNet.init [1, 1, 1, 4] = some ⟨featuresNet 1 1 1 4⟩) ∧
    (runNetV natSem (DenseNetM.mk (featuresNet 1 1 1 4)).features 5 0).1 =
      (runNetV natSem (DenseNetM.mk (featuresNet 1 1 1 4)).features 5 99).1 :=
  ⟨rfl,
   forward_rng_independent natSem [1, 1, 1, 4] ⟨featuresNet 1 1 1 4⟩ rfl 5 0 99⟩

/-- Claim C7: the forward pass returns exactly the result of applying the
declared stage sequence (stage 0, transition, stage 1, transition, stage 2,
transition, stage 3) to the input, with no classification head or other
post-processing. -/
theorem forward_is_stage_sequence (c0 c1 c2 c3 : Nat) (m : DenseNetM)
    (hinit : DenseNet.init [c0, c1, c2, c3] = some m) (x : Shape) :
    (m.hybrid_forward x).1 =
      ((((((runNet [make_first_stage_net c0 c1] x).bind
        (runNet (make_transition c1 2 2))).bind
        (runNet (make_inter_stage_net 2 c0))).bind
        (runNet (make_transition c2 2 2))).bind
        (runNet (make_inter_stage_net 2 c1))).bind
        (runNet (make_transition c3 2 1))).bind
        (runNet (make_final_stage_net c3)) := by
  simp only [DenseNet.init, Option.some.injEq] at hinit
  subst hinit
  simp only [DenseNetM.hybrid_forward, featuresNet, runNet_append]

/-- Witness for C7: configuration [1,1,1,4], input (1,1,32,8). -/
theorem forward_is_stage_sequence_witness :
    (DenseNet.init [1, 1, 1, 4] = some ⟨featuresNet 1 1 1 4⟩) ∧
    ((DenseNetM.mk (featuresNet 1 1 1 4)).hybrid_forward ⟨1, 1, 32, 8⟩).1 =
      ((((((runNet [make_first_stage_net 1 1] ⟨1, 1, 32, 8⟩).bind
        (runNet (make_transition 1 2 2))).bind
        (runNet (make_inter_stage_net 2 1))).bind
        (runNet (make_transition 1 2 2))).bind
        (runNet (make_inter_stage_net 2 1))).bind
        (runNet (make_transition 4 2 1))).bind
        (runNet (make_final_stage_net 4)) :=
  ⟨rfl,
   forward_is_stage_sequence 1 1 1 4 ⟨featuresNet 1 1 1 4⟩ rfl ⟨1, 1, 32, 8⟩⟩

/-- Claim C8: the forward pass leaves the module's feature graph unchanged,
and the same graph can be consumed repeatedly: a second forward pass on the
returned module yields the same output. -/
theorem forward_preserves_graph (m : DenseNetM) (x : Shape) :
    (m.hybrid_forward x).2 = m ∧
    ((m.hybrid_forward x).2.hybrid_forward x).1 = (m.hybrid_forward x).1 :=
  ⟨rfl, rfl⟩

/-- Claim C9: no initialised DenseNet contains a Dropout layer (every dense
layer is built with rate 0.0), and the dropout-adding branch of
`_make_dense_layer` is taken exactly when the rate is nonzero. -/
theorem network_has_no_dropout (lc : List Nat) (m : DenseNetM)
    (hinit : DenseNet.init lc = some m) (g b : Nat) (d : ℚ) :
    Net.hasDropout m.features = false ∧
    (Layer.hasDropout (make_dense_layer g b d) = true ↔ d ≠ 0) := by
  obtain ⟨c0, c1, c2, c3, rfl, rfl⟩ := init_inversion lc m hinit
  refine ⟨featuresNet_no_dropout c0 c1 c2 c3, ?_⟩
  rcases eq_or_ne d 0 with hd | hd <;>
    simp [make_dense_layer, hd, Layer.hasDropout, PrimLayer.isDropout,
          List.any_append, List.any_cons]

/-- Witness for C9: configuration [1,1,1,4] and rate 1/2. -/
theorem network_has_no_dropout_witness :
    (DenseNet.init [1, 1, 1, 4] = some ⟨featuresNet 1 1 1 4⟩) ∧
    Net.hasDropout (DenseNetM.mk (featuresNet 1 1 1 4)).features = false ∧
    (Layer.hasDropout (make_dense_layer 2 2 (1 / 2)) = true ↔ (1 / 2 : ℚ) ≠ 0) :=
  ⟨rfl,
   (network_has_no_dropout [1, 1, 1, 4] ⟨featuresNet 1 1 1 4⟩ rfl 2 2 (1 / 2)).1,
   (network_has_no_dropout [1, 1, 1, 4] ⟨featuresNet 1 1 1 4⟩ rfl 2 2 (1 / 2)).2⟩

/-- Claim C10: for every input (n, c, h, w) with h divisible by 8, w divisible
by 4, h ≥ 32 and w ≥ 8, the forward output is (n, c3, h/8 - 3, w/4 - 1): the
three max-pools divide the height by 2, 2, 2 and the width by 2, 2, then
reduce it by 1 (strides (2,1)), and the final (4,1) convolution reduces the
height by a further 3. -/
theorem forward_spatial_shape (c0 c1 c2 c3 n c h w : Nat) (m : DenseNetM)
    (hinit : DenseNet.init [c0, c1, c2, c3] = some m)
    (h8 : 8 ∣ h) (w4 : 4 ∣ w) (hh : 32 ≤ h) (hw : 8 ≤ w) :
    (m.hybrid_forward ⟨n, c, h, w⟩).1 = some ⟨n, c3, h / 8 - 3, w / 4 - 1⟩ := by
  simp only [DenseNet.init, Option.some.injEq] at hinit
  subst hinit
  have s0 := first_stage_outShape c0 c1 n c h w (by omega) (by omega)
  have t1 := transition_runNet_22 c1 n (c + c1) h w (by omega) (by omega)
  have i1 := inter_stage_runNet c0 n c1 (h / 2) (w / 2) (by omega) (by omega)
  have t2 := transition_runNet_22 c2 n (c1 + c0 + c0) (h / 2) (w / 2)
    (by omega) (by omega)
  have i2 := inter_stage_runNet c1 n c2 (h / 2 / 2) (w / 2 / 2)
    (by omega) (by omega)
  have t3 := transition_runNet_21 c3 n (c2 + c1 + c1) (h / 2 / 2) (w / 2 / 2)
    (by omega) (by omega)
  have f3 := final_stage_runNet c3 n c3 (h / 2 / 2 / 2) (w / 2 / 2 - 1)
    (by omega) (by omega)
  have s0' : runNet [make_first_stage_net c0 c1] ⟨n, c, h, w⟩ =
      some ⟨n, c + c1, h, w⟩ := by
    simp [runNet, s0]
  simp only [DenseNetM.hybrid_forward, featuresNet, runNet_append]
  rw [s0', Option.some_bind, t1, Option.some_bind, i1, Option.some_bind, t2,
      Option.some_bind, i2, Option.some_bind, t3, Option.some_bind, f3]
  simp only [Nat.div_div_eq_div_mul]

/-- Witness for C10: configuration [1,1,1,4], input (1,1,32,8). -/
theorem forward_spatial_shape_witness :
    (DenseNet.init [1, 1, 1, 4] = some ⟨featuresNet 1 1 1 4⟩) ∧
    ((8:Nat) ∣ 32) ∧ ((4:Nat) ∣ 8) ∧ (32:Nat) ≤ 32 ∧ (8:Nat) ≤ 8 ∧
    ((DenseNetM.mk (featuresNet 1 1 1 4)).hybrid_forward ⟨1, 1, 32, 8⟩).1 =
      some ⟨1, 4, 32 / 8 - 3, 8 / 4 - 1⟩ :=
  ⟨rfl, by decide, by decide, by decide, by decide,
   forward_spatial_shape 1 1 1 4 1 1 32 8 ⟨featuresNet 1 1 1 4⟩ rfl
     (by decide) (by decide) (by decide) (by decide)⟩

end CnocrDensenet
